import Mathlib

/-!
Verification of the moderntides tide-plot pipeline
(`custom_components/moderntides/plot_manager.py`).

Shallow embedding conventions:
* `datetime` instants and tide heights are modelled as rationals (`ℚ`); time
  arithmetic in the source goes through `timedelta.total_seconds()`, which is
  exact real arithmetic at this granularity.
* Python exceptions are modelled with `Except Unit` / `Option`; the broad
  `try/except` in `generate_tide_plot` becomes a `match` on the `Except`.
* The produced vector document is modelled structurally (`SvgDoc`): the error
  artifact carries its two theme colors, the chart document carries the data
  the markup string is generated from.  String serialization of the chart is
  presentation-only and not needed by any property below.
* Python's stable `sorted(..., key=time)` is modelled with the stable
  `List.insertionSort` on the time projection.
-/

namespace ModernTides

/-- One tide prediction: `{'time': dt, 'height': h}` in the source. -/
structure Prediction where
  time : ℚ
  height : ℚ
deriving DecidableEq, Inhabited

/-- The `'type'` tag given to a detected extreme: `'high'` or `'low'`. -/
inductive TideKind where
  | high
  | low
deriving DecidableEq, Inhabited

/-- One detected extreme: `{'time': .., 'height': .., 'type': ..}`. -/
structure Extreme where
  time : ℚ
  height : ℚ
  kind : TideKind
deriving DecidableEq, Inhabited

/-- Key order used by `sorted(predictions, key=lambda x: x['time'])`. -/
def timeLE (a b : Prediction) : Prop := a.time ≤ b.time

instance : DecidableRel timeLE :=
  fun a b => inferInstanceAs (Decidable (a.time ≤ b.time))

instance : IsTotal Prediction timeLE := ⟨fun a b => le_total a.time b.time⟩

instance : IsTrans Prediction timeLE := ⟨fun _ _ _ hab hbc => le_trans hab hbc⟩

/-- `sorted(predictions, key=lambda x: x['time'])` (stable sort on time). -/
def sortByTime (ps : List Prediction) : List Prediction :=
  List.insertionSort timeLE ps

/-! ## `_find_extremes` (lines 206-243) -/

/-- The boundary-adjusted `(prev_height, curr_height, next_height)` triple for
index `i` in `_find_extremes`: the first index reuses its own height as
`prev_height`, the last reuses its own height as `next_height`. -/
def neighborHeights (ps : List Prediction) (i : Nat) : ℚ × ℚ × ℚ :=
  if i = 0 then
    ((ps.getD i default).height, (ps.getD i default).height, (ps.getD (i + 1) default).height)
  else if i = ps.length - 1 then
    ((ps.getD (i - 1) default).height, (ps.getD i default).height, (ps.getD i default).height)
  else
    ((ps.getD (i - 1) default).height, (ps.getD i default).height, (ps.getD (i + 1) default).height)

/-- The body of the loop in `_find_extremes`: the tag (if any) appended for
index `i`.  Note the source's `elif`: a point can contribute at most one tag,
and the `high` test is evaluated first. -/
def classifyPoint (ps : List Prediction) (i : Nat) : Option Extreme :=
  let t := neighborHeights ps i
  if t.1 ≤ t.2.1 ∧ t.2.2 ≤ t.2.1 then
    some ⟨(ps.getD i default).time, t.2.1, TideKind.high⟩
  else if t.2.1 ≤ t.1 ∧ t.2.1 ≤ t.2.2 then
    some ⟨(ps.getD i default).time, t.2.1, TideKind.low⟩
  else
    none

/-- `_find_extremes`: fewer than 3 points gives `[]`; otherwise the loop over
`range(len(predictions))` accumulating `classifyPoint` results. -/
def findExtremes (ps : List Prediction) : List Extreme :=
  if ps.length < 3 then []
  else (List.range ps.length).filterMap (classifyPoint ps)

/-! ## `_interpolate_current_height` (lines 176-204) -/

/-- The scan `for i in range(len(predictions) - 1)` over consecutive pairs:
first bracket with `time[i] <= query <= time[i+1]` returns the linear
interpolation, with the `total_seconds == 0` guard returning `h1`; falling off
the loop returns `None`. -/
def scanBrackets : List Prediction → ℚ → Option ℚ
  | p1 :: p2 :: rest, t =>
    if p1.time ≤ t ∧ t ≤ p2.time then
      some (if p2.time - p1.time = 0 then p1.height
            else p1.height + (p2.height - p1.height) * ((t - p1.time) / (p2.time - p1.time)))
    else scanBrackets (p2 :: rest) t
  | _, _ => none

/-- `_interpolate_current_height`. -/
def interpolateCurrentHeight (ps : List Prediction) (t : ℚ) : Option ℚ :=
  if ps.length < 2 then none else scanBrackets ps t

/-! ## `_generate_smooth_curve` (lines 128-174) -/

/-- The `j`-th inserted point between `p1` and `p2` (`j = 1..5`):
`ratio = j/6`, time linear, height through the cubic `3 r^2 - 2 r^3`. -/
def interpBetween (p1 p2 : Prediction) (j : Nat) : Prediction :=
  let r : ℚ := (j : ℚ) / 6
  let cubic : ℚ := 3 * r ^ 2 - 2 * r ^ 3
  { time := p1.time + (p2.time - p1.time) * r
    height := p1.height + (p2.height - p1.height) * cubic }

/-- The pair loop of `_generate_smooth_curve` on the sorted list: for each
adjacent pair emit the left point and the 5 interpolated points, and append
the final point after the loop. -/
def smoothSegments : Prediction → List Prediction → List Prediction
  | p, [] => [p]
  | p1, p2 :: rest =>
    (p1 :: (List.range 5).map (fun j => interpBetween p1 p2 (j + 1))) ++ smoothSegments p2 rest

/-- `_generate_smooth_curve`: fewer than 2 predictions are returned unchanged;
otherwise the input is sorted by time and densified.  The `currentTime`
argument is accepted and unused, as in the source. -/
def generateSmoothCurve (ps : List Prediction) (currentTime : ℚ) : List Prediction :=
  if ps.length < 2 then ps
  else
    match sortByTime ps with
    | [] => []
    | q :: qs => smoothSegments q qs

/-! ## `_extract_predictions` (lines 75-126) -/

/-- A Python value usable as the `"altura"` field: a number, a string, or
`None`.  `float` succeeds on the first two shapes (the string only when it is
numeric) and raises `TypeError` on `None`. -/
inductive PyVal where
  | num (q : ℚ)
  | str (s : String)
  | null
deriving DecidableEq

/-- One entry of `daily.mareas.prediccion`: a dict with optional
`"fecha"`, `"hora"` and `"altura"` keys (`entry.get` returns `None` when the
key is absent). -/
structure RawEntry where
  fecha : Option String
  hora : Option String
  altura : Option PyVal
deriving DecidableEq

/-- The tide-data payload seen by `_extract_predictions`:
`tide_points` models the pre-normalized key (present/absent; possibly empty),
`prediccion` models the nested `daily.mareas.prediccion` list, `none` standing
for any missing level of the nesting. -/
structure Payload where
  tide_points : Option (List Prediction)
  prediccion : Option (List RawEntry)
deriving DecidableEq

/-- Numeric value of an ASCII digit. -/
def digitVal (c : Char) : Nat := c.toNat - 48

/-- The characters CPython's `\s` and `str`/`float` whitespace stripping
match within ASCII: space, tab, LF, VT, FF, CR. -/
def isPySpace (c : Char) : Bool :=
  c = ' ' ∨ c = '\t' ∨ c = '\n' ∨ c = '\r' ∨ c.toNat = 11 ∨ c.toNat = 12

/-- Strip leading and trailing whitespace, as `float` does on strings. -/
def stripPySpace (cs : List Char) : List Char :=
  ((cs.dropWhile isPySpace).reverse.dropWhile isPySpace).reverse

/-- Gregorian leap-year rule, used by the `datetime` constructor to validate
the day of month. -/
def isLeapYear (y : Nat) : Bool :=
  y % 4 == 0 && (y % 100 != 0 || y % 400 == 0)

/-- Number of days in a month, for `datetime` day validation. -/
def daysInMonth (y m : Nat) : Nat :=
  if m = 2 then (if isLeapYear y then 29 else 28)
  else if m = 4 ∨ m = 6 ∨ m = 9 ∨ m = 11 then 30
  else 31

/-!
`datetime.strptime(s, "%Y-%m-%d %H:%M:%S")` is modelled by the regex CPython's
`_strptime` compiles for this format:
`\d\d\d\d  -  (1[0-2]|0[1-9]|[1-9])  -  (3[01]|[12]\d|0[1-9]|[1-9]| [1-9])
\s+  (2[0-3]|[0-1]\d|\d)  :  ([0-5]\d|\d)  :  (6[0-1]|[0-5]\d|\d)`,
anchored at the start and required to consume the whole string, with ordered
alternation and backtracking, followed by the `datetime(...)` constructor
checks (year at least 1; day valid for the month; second at most 59, so the
regex's 60/61 leap-second matches still raise).  Each `...Alts` function
lists a field's candidate `(value, rest)` parses in alternation order; the
`\d` classes are ASCII digits, which is exact for ASCII input strings. -/

/-- `%m` field `1[0-2]|0[1-9]|[1-9]`. -/
def monthAlts (cs : List Char) : List (Nat × List Char) :=
  (match cs with
   | c1 :: c2 :: rest =>
     if c1 = '1' ∧ '0' ≤ c2 ∧ c2 ≤ '2' then [(10 + digitVal c2, rest)] else []
   | _ => []) ++
  (match cs with
   | c1 :: c2 :: rest =>
     if c1 = '0' ∧ '1' ≤ c2 ∧ c2 ≤ '9' then [(digitVal c2, rest)] else []
   | _ => []) ++
  (match cs with
   | c1 :: rest =>
     if '1' ≤ c1 ∧ c1 ≤ '9' then [(digitVal c1, rest)] else []
   | _ => [])

/-- `%d` field `3[01]|[12]\d|0[1-9]|[1-9]| [1-9]` (note the space-padded
single-digit day). -/
def dayAlts (cs : List Char) : List (Nat × List Char) :=
  (match cs with
   | c1 :: c2 :: rest =>
     if c1 = '3' ∧ (c2 = '0' ∨ c2 = '1') then [(30 + digitVal c2, rest)] else []
   | _ => []) ++
  (match cs with
   | c1 :: c2 :: rest =>
     if (c1 = '1' ∨ c1 = '2') ∧ c2.isDigit then
       [(10 * digitVal c1 + digitVal c2, rest)] else []
   | _ => []) ++
  (match cs with
   | c1 :: c2 :: rest =>
     if c1 = '0' ∧ '1' ≤ c2 ∧ c2 ≤ '9' then [(digitVal c2, rest)] else []
   | _ => []) ++
  (match cs with
   | c1 :: rest =>
     if '1' ≤ c1 ∧ c1 ≤ '9' then [(digitVal c1, rest)] else []
   | _ => []) ++
  (match cs with
   | c1 :: c2 :: rest =>
     if c1 = ' ' ∧ '1' ≤ c2 ∧ c2 ≤ '9' then [(digitVal c2, rest)] else []
   | _ => [])

/-- `%H` field `2[0-3]|[0-1]\d|\d`. -/
def hourAlts (cs : List Char) : List (Nat × List Char) :=
  (match cs with
   | c1 :: c2 :: rest =>
     if c1 = '2' ∧ '0' ≤ c2 ∧ c2 ≤ '3' then [(20 + digitVal c2, rest)] else []
   | _ => []) ++
  (match cs with
   | c1 :: c2 :: rest =>
     if (c1 = '0' ∨ c1 = '1') ∧ c2.isDigit then
       [(10 * digitVal c1 + digitVal c2, rest)] else []
   | _ => []) ++
  (match cs with
   | c1 :: rest =>
     if c1.isDigit then [(digitVal c1, rest)] else []
   | _ => [])

/-- `%M` field `[0-5]\d|\d`. -/
def minuteAlts (cs : List Char) : List (Nat × List Char) :=
  (match cs with
   | c1 :: c2 :: rest =>
     if '0' ≤ c1 ∧ c1 ≤ '5' ∧ c2.isDigit then
       [(10 * digitVal c1 + digitVal c2, rest)] else []
   | _ => []) ++
  (match cs with
   | c1 :: rest =>
     if c1.isDigit then [(digitVal c1, rest)] else []
   | _ => [])

/-- `%S` field `6[0-1]|[0-5]\d|\d`. -/
def secondAlts (cs : List Char) : List (Nat × List Char) :=
  (match cs with
   | c1 :: c2 :: rest =>
     if c1 = '6' ∧ (c2 = '0' ∨ c2 = '1') then [(60 + digitVal c2, rest)] else []
   | _ => []) ++
  (match cs with
   | c1 :: c2 :: rest =>
     if '0' ≤ c1 ∧ c1 ≤ '5' ∧ c2.isDigit then
       [(10 * digitVal c1 + digitVal c2, rest)] else []
   | _ => []) ++
  (match cs with
   | c1 :: rest =>
     if c1.isDigit then [(digitVal c1, rest)] else []
   | _ => [])

/-- The regex match for `"%Y-%m-%d %H:%M:%S"` on the whole string: four year
digits and literal separators directly, the `...Alts` alternations with
depth-first backtracking (`findSome?` takes the first candidate whose
continuation succeeds, exactly the regex engine's order), the format's one
space compiled to greedy `\s+` (safe maximal munch: whitespace and the
following digit classes are disjoint), and the `len(data_string) ==
found.end()` full-consumption check. -/
def strptimeYmdHms (cs : List Char) : Option (Nat × Nat × Nat × Nat × Nat × Nat) :=
  match cs with
  | y1 :: y2 :: y3 :: y4 :: '-' :: rest1 =>
    if y1.isDigit ∧ y2.isDigit ∧ y3.isDigit ∧ y4.isDigit then
      let y := ((digitVal y1 * 10 + digitVal y2) * 10 + digitVal y3) * 10 + digitVal y4
      (monthAlts rest1).findSome? (fun mo =>
        match mo.2 with
        | '-' :: rest2 =>
          (dayAlts rest2).findSome? (fun d =>
            match d.2 with
            | c :: rest3 =>
              if isPySpace c then
                let rest4 := rest3.dropWhile isPySpace
                (hourAlts rest4).findSome? (fun hh =>
                  match hh.2 with
                  | ':' :: rest5 =>
                    (minuteAlts rest5).findSome? (fun mi =>
                      match mi.2 with
                      | ':' :: rest6 =>
                        (secondAlts rest6).findSome? (fun ss =>
                          if ss.2 = [] then some (y, mo.1, d.1, hh.1, mi.1, ss.1)
                          else none)
                      | _ => none)
                  | _ => none)
              else none
            | _ => none)
        | _ => none)
    else none
  | _ => none

/-- `datetime.strptime(s, "%Y-%m-%d %H:%M:%S")`: the regex match followed by
the `datetime` constructor validation (`MINYEAR = 1`; day bounded by the
month; second at most 59 even though the regex admits 60/61). -/
def strptimeDatetime (cs : List Char) : Option (Nat × Nat × Nat × Nat × Nat × Nat) :=
  match strptimeYmdHms cs with
  | some (y, mo, d, hh, mi, ss) =>
    if 1 ≤ y ∧ d ≤ daysInMonth y mo ∧ ss ≤ 59 then some (y, mo, d, hh, mi, ss)
    else none
  | none => none

/-- Order-preserving encoding of a parsed naive datetime as a rational
instant (second granularity), standing for the `datetime` object. -/
def datetimeToTimestamp (y mo d hh mi ss : Nat) : ℚ :=
  (((((y * 12 + mo) * 32 + d) * 24 + hh) * 60 + mi) * 60 + ss : Nat)

/-- Greedy scan of `digit (digit | '_' digit)*` as Python number literals
allow in `float` (underscores only between digits): returns the accumulated
value, the count of digits consumed, and the rest.  Stops before a trailing
or doubled underscore, leaving it unconsumed for the caller to reject. -/
def munchDigitsU : List Char → Nat → Nat → Nat × Nat × List Char
  | [], acc, k => (acc, k, [])
  | [c], acc, k =>
    if c.isDigit then (acc * 10 + digitVal c, k + 1, []) else (acc, k, [c])
  | c :: c2 :: rest, acc, k =>
    if c.isDigit then munchDigitsU (c2 :: rest) (acc * 10 + digitVal c) (k + 1)
    else if c = '_' ∧ c2.isDigit then munchDigitsU rest (acc * 10 + digitVal c2) (k + 1)
    else (acc, k, c :: c2 :: rest)

/-- A digit group must begin with a digit (no leading underscore). -/
def munchGroup (cs : List Char) : Nat × Nat × List Char :=
  match cs with
  | c :: _ => if c.isDigit then munchDigitsU cs 0 0 else (0, 0, cs)
  | [] => (0, 0, cs)

/-- The optional exponent tail of a `float` string: empty, or `e`/`E`, an
optional sign and a non-empty digit group (underscores between digits),
consuming the whole remainder. -/
def parseExpPart (cs : List Char) : Option Int :=
  match cs with
  | [] => some 0
  | c :: rest =>
    if c = 'e' ∨ c = 'E' then
      let sgn2 : Bool × List Char :=
        match rest with
        | c2 :: r2 =>
          if c2 = '-' then (true, r2)
          else if c2 = '+' then (false, r2)
          else (false, rest)
        | [] => (false, rest)
      let ev := munchGroup sgn2.2
      if ev.2.1 = 0 ∨ ev.2.2 ≠ [] then none
      else some (if sgn2.1 then -(ev.1 : Int) else (ev.1 : Int))
    else none

/-- Python `float(s)` on an ASCII string spelling a finite decimal: strip
whitespace; optional sign; mantissa `digits [. digits?] | . digits` with
underscores between digits; optional exponent.  The value is the exact
decimal as a rational (the real-number model of the nearest double); the
non-finite spellings and non-ASCII digits are outside the modelled domain
(`alturaInModel`). -/
def parseFloatQ (s : String) : Option ℚ :=
  let t := stripPySpace s.toList
  let sgn : Bool × List Char :=
    match t with
    | c :: rest =>
      if c = '-' then (true, rest)
      else if c = '+' then (false, rest)
      else (false, t)
    | [] => (false, t)
  let ipRes := munchGroup sgn.2
  let mant : Option (ℚ × List Char) :=
    if ipRes.2.1 = 0 then
      match ipRes.2.2 with
      | '.' :: r2 =>
        let fpRes := munchGroup r2
        if fpRes.2.1 = 0 then none
        else some ((fpRes.1 : ℚ) / (10 : ℚ) ^ fpRes.2.1, fpRes.2.2)
      | _ => none
    else
      match ipRes.2.2 with
      | '.' :: r2 =>
        let fpRes := munchGroup r2
        some ((ipRes.1 : ℚ) + (fpRes.1 : ℚ) / (10 : ℚ) ^ fpRes.2.1, fpRes.2.2)
      | _ => some ((ipRes.1 : ℚ), ipRes.2.2)
  match mant with
  | some mr =>
    match parseExpPart mr.2 with
    | some e =>
      let q := mr.1 * (10 : ℚ) ^ e
      some (if sgn.1 then -q else q)
    | none => none
  | none => none

/-- `float(v)` on an `"altura"` value (`TypeError` on `None`). -/
def pyFloat : PyVal → Option ℚ
  | PyVal.num q => some q
  | PyVal.str s => parseFloatQ s
  | PyVal.null => none

/-- The per-entry body of the extraction loop (lines 100-119): `None` models
the `continue` taken when `fecha`/`hora` are missing or falsy, or when
`strptime`/`float` raises.  The datetime is parsed from the combined
`f"{fecha} {hora}"` string in one `strptime` call, as in the source; an
absent `"altura"` key defaults to `0`. -/
def parseEntry (e : RawEntry) : Option Prediction :=
  match e.fecha, e.hora with
  | some f, some h =>
    if f ≠ "" ∧ h ≠ "" then
      match strptimeDatetime (f.toList ++ ' ' :: h.toList) with
      | some (y, mo, d, hh, mi, ss) =>
        match pyFloat (e.altura.getD (PyVal.num 0)) with
        | some ht => some ⟨datetimeToTimestamp y mo d hh mi ss, ht⟩
        | none => none
      | none => none
    else none
  | _, _ => none

/-- The raw-shape loop: accumulate the successfully parsed entries in input
order. -/
def rawParse (entries : List RawEntry) : List Prediction :=
  entries.foldl
    (fun acc e =>
      match parseEntry e with
      | some p => acc ++ [p]
      | none => acc)
    []

/-- The fallback branch of `_extract_predictions` when `tide_points` is
absent or empty: navigate to `daily.mareas.prediccion` (yielding `[]` when
any level is missing) and parse each entry. -/
def rawFallback (d : Payload) : List Prediction :=
  match d.prediccion with
  | some es => rawParse es
  | none => []

/-- `_extract_predictions`: a present non-empty `tide_points` list is
returned unmodified, otherwise the raw fallback runs. -/
def extractPredictions (d : Payload) : List Prediction :=
  match d.tide_points with
  | some ps => if ps.isEmpty then rawFallback d else ps
  | none => rawFallback d

/-! ## Renderer and orchestration (lines 30-73, 245-320, 454-498) -/

/-- The constructor configuration of `TidePlotManager`. -/
structure Config where
  name : String
  filename : String
  transparent_background : Bool
  dark_mode : Bool
deriving DecidableEq

/-- The produced vector document, modelled structurally: the error artifact
carries its theme colors; a chart carries the geometric data the markup is
generated from (curve, extremes, current marker, padded domain, title). -/
inductive SvgDoc where
  | errorDoc (bgColor textColor : String)
  | chart (curve : List Prediction) (extremes : List Extreme)
      (currentTime : ℚ) (currentHeight : Option ℚ)
      (minTime maxTime minHeight maxHeight : ℚ) (title : String)
deriving DecidableEq

/-- `_generate_error_svg`: the fixed "Could not load tide data" artifact with
its theme-dependent background and text colors. -/
def generateErrorSvg (cfg : Config) : SvgDoc :=
  let bgColor :=
    if cfg.dark_mode && !cfg.transparent_background then "#1e1e1e"
    else if cfg.transparent_background then "none" else "white"
  let textColor := if cfg.dark_mode then "#FF5722" else "red"
  SvgDoc.errorDoc bgColor textColor

/-- Lines 271-274: pad the height range by `height_range * 0.1` downward at
the minimum and upward at the maximum. -/
def padHeightRange (minHeight maxHeight : ℚ) : ℚ × ℚ :=
  let heightRange := maxHeight - minHeight
  (minHeight - heightRange * (1 / 10), maxHeight + heightRange * (1 / 10))

/-- `min` over a non-empty list, as Python's `min(times)`. -/
def qListMin (x : ℚ) (xs : List ℚ) : ℚ := xs.foldl min x

/-- `max` over a non-empty list, as Python's `max(times)`. -/
def qListMax (x : ℚ) (xs : List ℚ) : ℚ := xs.foldl max x

/-- `_generate_svg_plot`, up to the observable outcomes: an empty curve list
short-circuits to the error artifact (line 262); otherwise the first
coordinate conversion divides by `max_time - min_time` (ZeroDivisionError
when the time domain is degenerate, modelled as `Except.error ()`), then by
the padded `max_height - min_height`; with both divisors non-zero the chart
document is produced.  `origPreds` is accepted and unused, as in the
source. -/
def generateSvgPlot (cfg : Config) (curvePoints : List Prediction)
    (extremes : List Extreme) (currentTime : ℚ) (currentHeight : Option ℚ)
    (origPreds : List Prediction) : Except Unit SvgDoc :=
  match curvePoints with
  | [] => Except.ok (generateErrorSvg cfg)
  | c :: cs =>
    let minTime := qListMin c.time (cs.map (fun p => p.time))
    let maxTime := qListMax c.time (cs.map (fun p => p.time))
    let minHeight := qListMin c.height (cs.map (fun p => p.height))
    let maxHeight := qListMax c.height (cs.map (fun p => p.height))
    let padded := padHeightRange minHeight maxHeight
    if maxTime - minTime = 0 then Except.error ()
    else if padded.2 - padded.1 = 0 then Except.error ()
    else
      Except.ok (SvgDoc.chart curvePoints extremes currentTime currentHeight
        minTime maxTime padded.1 padded.2 ("Tide Prediction - " ++ cfg.name))

/-- `generate_tide_plot`: falsy/absent payload and empty extraction report
failure; an exception escaping the pipeline is caught by the enclosing
`try/except` and reported as failure with no artifact; otherwise the
document is handed to the sink (whose write succeeds in this model) and the
operation reports success. -/
def generateTidePlot (cfg : Config) (tideData : Option Payload) (currentTime : ℚ) :
    Bool × Option SvgDoc :=
  match tideData with
  | none => (false, none)
  | some pay =>
    let predictions := extractPredictions pay
    if predictions.isEmpty then (false, none)
    else
      let curvePoints := generateSmoothCurve predictions currentTime
      let extremes := findExtremes predictions
      let currentHeight := interpolateCurrentHeight predictions currentTime
      match generateSvgPlot cfg curvePoints extremes currentTime currentHeight predictions with
      | Except.error _ => (false, none)
      | Except.ok doc => (true, some doc)

/-! ## `_save_svg_as_png` (lines 468-498) -/

/-- The base64 alphabet. -/
def base64Chars : String :=
  "ABCDEFGHIJKLMNOPQRSTUVWXYZabcdefghijklmnopqrstuvwxyz0123456789+/"

/-- The base64 digit for a 6-bit value. -/
def b64At (n : Nat) : String :=
  (base64Chars.toList.getD n 'A').toString

/-- Standard base64 of a byte list (bytes as `Nat < 256`), with padding. -/
def base64Encode : List Nat → String
  | [] => ""
  | [a] =>
    b64At (a / 4) ++ b64At (a % 4 * 16) ++ "=="
  | [a, b] =>
    b64At (a / 4) ++ b64At (a % 4 * 16 + b / 16) ++ b64At (b % 16 * 4) ++ "="
  | a :: b :: c :: rest =>
    b64At (a / 4) ++ b64At (a % 4 * 16 + b / 16) ++ b64At (b % 16 * 4 + c / 64) ++
      b64At (c % 64) ++ base64Encode rest

/-- UTF-8 encoding of one character (bytes as `Nat < 256`). -/
def utf8EncodeCharNats (c : Char) : List Nat :=
  let n := c.toNat
  if n < 128 then [n]
  else if n < 2048 then [192 + n / 64, 128 + n % 64]
  else if n < 65536 then [224 + n / 4096, 128 + n / 64 % 64, 128 + n % 64]
  else [240 + n / 262144, 128 + n / 4096 % 64, 128 + n / 64 % 64, 128 + n % 64]

/-- UTF-8 bytes of a string, as `svg_content.encode('utf-8')`. -/
def utf8Bytes (s : String) : List Nat :=
  (s.toList.map utf8EncodeCharNats).flatten

/-- Fuel-indexed worker for `str.replace`: replace every (non-overlapping,
leftmost-first) occurrence of `pat`.  `fuel` is the remaining input length, so
the recursion is structural. -/
def replaceListAux (pat repl : List Char) : Nat → List Char → List Char
  | 0, cs => cs
  | fuel + 1, cs =>
    match cs with
    | [] => []
    | c :: rest =>
      if pat ≠ [] ∧ pat.isPrefixOf cs then
        repl ++ replaceListAux pat repl fuel (cs.drop pat.length)
      else c :: replaceListAux pat repl fuel rest

/-- Python's `str.replace(pat, repl)` (all occurrences). -/
def replaceStr (s pat repl : String) : String :=
  ⟨replaceListAux pat.toList repl.toList s.toList.length s.toList⟩

/-- The `html_content` wrapper built at lines 481-487: the triple-quoted
f-string embedding the base64-encoded document.  The source computes this
value and never writes it to any file. -/
def htmlWrapper (svg : String) : String :=
  let svgBase64 := base64Encode (utf8Bytes svg)
  "\n            <html>\n            <body style=\"margin:0;padding:0;\">\n                <img src=\"data:image/svg+xml;base64," ++
    svgBase64 ++
    "\" style=\"width:800px;height:400px;\"/>\n            </body>\n            </html>\n            "

/-- `_save_svg_as_png`: the boolean result together with the list of
`(path, content)` writes performed, in order.  The alternate path substitutes
`".png"` with `".svg"` in the configured filename; both writes carry the
document itself. -/
def saveSvgAsPng (cfg : Config) (svgContent : String) : Bool × List (String × String) :=
  (true,
    [(replaceStr cfg.filename ".png" ".svg", svgContent),
     (cfg.filename, svgContent)])

/-! ## Helper lemmas -/

theorem sortByTime_sorted (ps : List Prediction) : List.Sorted timeLE (sortByTime ps) :=
  List.sorted_insertionSort timeLE ps

theorem sortByTime_idem (ps : List Prediction) : sortByTime (sortByTime ps) = sortByTime ps :=
  List.Sorted.insertionSort_eq (sortByTime_sorted ps)

theorem sortByTime_length (ps : List Prediction) : (sortByTime ps).length = ps.length :=
  (List.perm_insertionSort timeLE ps).length_eq

/-! ## C1: extremum classification on a flat run -/

/-- C1: counterexample.  On the flat run `[(0,2),(1,2),(2,2)]` every point's
height equals both boundary-adjusted neighbors, yet `_find_extremes` emits
exactly three tags, all `high`, and no point is emitted twice with both tags:
the `elif` keeps the `low` branch from firing once the `high` branch has. -/
theorem findExtremes_flat_run_no_low :
    findExtremes [⟨0, 2⟩, ⟨1, 2⟩, ⟨2, 2⟩] =
      [⟨0, 2, TideKind.high⟩, ⟨1, 2, TideKind.high⟩, ⟨2, 2, TideKind.high⟩]
    ∧ List.countP (fun e => decide (e.kind = TideKind.low))
        (findExtremes [⟨0, 2⟩, ⟨1, 2⟩, ⟨2, 2⟩]) = 0 := by
  have h : findExtremes [⟨0, 2⟩, ⟨1, 2⟩, ⟨2, 2⟩] =
      [⟨0, 2, TideKind.high⟩, ⟨1, 2, TideKind.high⟩, ⟨2, 2, TideKind.high⟩] := by
    norm_num [findExtremes, classifyPoint, neighborHeights, List.range_succ,
      List.filterMap_cons, List.getD]
  refine ⟨h, ?_⟩
  rw [h]
  rfl

/-- C1 (amended): in extremum detection a point whose height is exactly equal
to both of its boundary-adjusted neighbors is emitted once, tagged `high`
only (the `low` test is an `elif` and cannot fire as well), and the whole
output has at most one tag per point. -/
theorem findExtremes_flat_point_single_high (ps : List Prediction) (i : Nat)
    (h3 : 3 ≤ ps.length) (hi : i < ps.length)
    (hprev : (neighborHeights ps i).1 = (neighborHeights ps i).2.1)
    (hnext : (neighborHeights ps i).2.2 = (neighborHeights ps i).2.1) :
    classifyPoint ps i =
      some ⟨(ps.getD i default).time, (neighborHeights ps i).2.1, TideKind.high⟩
    ∧ (findExtremes ps).length ≤ ps.length := by
  constructor
  · simp only [classifyPoint, hprev, hnext, le_refl, and_self, if_true]
  · unfold findExtremes
    split
    · simp
    · calc ((List.range ps.length).filterMap (classifyPoint ps)).length
          ≤ (List.range ps.length).length := List.length_filterMap_le _ _
        _ = ps.length := List.length_range _

/-- C1 (witness): the amended statement instantiated on the flat run at its
middle index. -/
theorem findExtremes_flat_point_single_high_witness :
    classifyPoint [⟨0, 2⟩, ⟨1, 2⟩, ⟨2, 2⟩] 1 = some ⟨1, 2, TideKind.high⟩
    ∧ (findExtremes [⟨0, 2⟩, ⟨1, 2⟩, ⟨2, 2⟩]).length ≤ 3 := by
  have h := findExtremes_flat_point_single_high [⟨0, 2⟩, ⟨1, 2⟩, ⟨2, 2⟩] 1
    (by norm_num) (by norm_num)
    (by norm_num [neighborHeights, List.getD])
    (by norm_num [neighborHeights, List.getD])
  refine ⟨?_, by simpa using h.2⟩
  rw [h.1]
  norm_num [neighborHeights, List.getD]

/-! ## C2: extremum detection on `[1,3,5,3,1]` -/

/-- C2: counterexample.  On heights `[1,3,5,3,1]` the detector does not tag
exactly one point: it emits three tags. -/
theorem findExtremes_peak_seq_not_single :
    (findExtremes [⟨0, 1⟩, ⟨1, 3⟩, ⟨2, 5⟩, ⟨3, 3⟩, ⟨4, 1⟩]).length ≠ 1 := by
  have h : findExtremes [⟨0, 1⟩, ⟨1, 3⟩, ⟨2, 5⟩, ⟨3, 3⟩, ⟨4, 1⟩] =
      [⟨0, 1, TideKind.low⟩, ⟨2, 5, TideKind.high⟩, ⟨4, 1, TideKind.low⟩] := by
    norm_num [findExtremes, classifyPoint, neighborHeights, List.range_succ,
      List.filterMap_cons, List.getD]
  rw [h]
  norm_num

/-- C2 (amended): on the time-sorted sequence with heights `[1,3,5,3,1]` the
detector tags three points: the interior peak at height 5 as `high`, and both
boundary points at height 1 as `low` (each boundary point ties with itself
and lies below its one true neighbor). -/
theorem findExtremes_peak_seq_three_tags :
    findExtremes [⟨0, 1⟩, ⟨1, 3⟩, ⟨2, 5⟩, ⟨3, 3⟩, ⟨4, 1⟩] =
      [⟨0, 1, TideKind.low⟩, ⟨2, 5, TideKind.high⟩, ⟨4, 1, TideKind.low⟩] := by
  norm_num [findExtremes, classifyPoint, neighborHeights, List.range_succ,
    List.filterMap_cons, List.getD]

/-! ## C5: defensive sorting -/

/-- C5: counterexample.  The instant interpolator scans its input in the
given order without sorting: on the reversed two-point list it finds no
bracket and returns `None`, while on the same predictions sorted ascending it
returns `2.0`; the result is not invariant under permutation of the input. -/
theorem interpolate_not_permutation_invariant :
    sortByTime [⟨10, 3⟩, ⟨0, 1⟩] = [⟨0, 1⟩, ⟨10, 3⟩]
    ∧ interpolateCurrentHeight [⟨10, 3⟩, ⟨0, 1⟩] 5 = none
    ∧ interpolateCurrentHeight [⟨0, 1⟩, ⟨10, 3⟩] 5 = some 2 := by
  refine ⟨?_, ?_, ?_⟩
  · norm_num [sortByTime, List.insertionSort, List.orderedInsert, timeLE]
  · norm_num [interpolateCurrentHeight, scanBrackets]
  · norm_num [interpolateCurrentHeight, scanBrackets]

/-- C5 (amended): of the two consumers, only the curve synthesizer sorts
defensively — its output on any input equals its output on the time-sorted
input — while the instant interpolator scans the list as given and its result
can change under permutation. -/
theorem generateSmoothCurve_sort_invariant (ps : List Prediction) (t : ℚ) :
    generateSmoothCurve ps t = generateSmoothCurve (sortByTime ps) t
    ∧ interpolateCurrentHeight [⟨10, 3⟩, ⟨0, 1⟩] 5
        ≠ interpolateCurrentHeight (sortByTime [⟨10, 3⟩, ⟨0, 1⟩]) 5 := by
  constructor
  · by_cases h : ps.length < 2
    · match ps, h with
      | [], _ => simp [generateSmoothCurve, sortByTime, List.insertionSort]
      | [a], _ => simp [generateSmoothCurve, sortByTime, List.insertionSort, List.orderedInsert]
    · have h2 : ¬(sortByTime ps).length < 2 := by rwa [sortByTime_length]
      simp only [generateSmoothCurve, if_neg h, if_neg h2, sortByTime_idem]
  · have hs : sortByTime [⟨10, 3⟩, ⟨0, 1⟩] = [(⟨0, 1⟩ : Prediction), ⟨10, 3⟩] := by
      norm_num [sortByTime, List.insertionSort, List.orderedInsert, timeLE]
    rw [hs]
    have h1 : interpolateCurrentHeight [⟨10, 3⟩, ⟨0, 1⟩] 5 = none := by
      norm_num [interpolateCurrentHeight, scanBrackets]
    have h2 : interpolateCurrentHeight [⟨0, 1⟩, ⟨10, 3⟩] 5 = some 2 := by
      norm_num [interpolateCurrentHeight, scanBrackets]
    rw [h1, h2]
    simp

/-! ## C6: height-range padding -/

/-- C6: counterexample.  For raw range `[0, 10]` the padded height range is
`12`, not `1.1` times the raw range (`11`). -/
theorem padHeightRange_not_ten_percent_total :
    (padHeightRange 0 10).2 - (padHeightRange 0 10).1 ≠ (11 / 10) * (10 - 0) := by
  norm_num [padHeightRange]

/-- C6 (amended): the renderer pads the height range outward by 10% of the
raw range on each side — min lowered and max raised by the equal amount
`range/10` — so the padded height range equals `1.2` times the raw range. -/
theorem padHeightRange_spec (minH maxH : ℚ) :
    minH - (padHeightRange minH maxH).1 = (maxH - minH) * (1 / 10)
    ∧ (padHeightRange minH maxH).2 - maxH = (maxH - minH) * (1 / 10)
    ∧ (padHeightRange minH maxH).2 - (padHeightRange minH maxH).1 =
        (12 / 10) * (maxH - minH) := by
  refine ⟨?_, ?_, ?_⟩ <;> simp [padHeightRange] <;> ring

/-! ## C7: instant interpolator -/

theorem scanBrackets_all_lt :
    ∀ (l : List Prediction) (t : ℚ), (∀ p ∈ l, t < p.time) → scanBrackets l t = none
  | [], _, _ => rfl
  | [_], _, _ => rfl
  | p :: q :: rs, t, h => by
    have hrec := scanBrackets_all_lt (q :: rs) t
      (fun x hx => h x (List.mem_cons_of_mem _ hx))
    simp only [scanBrackets, hrec, ite_eq_right_iff]
    intro hc
    exact absurd hc.1 (not_le.2 (h p (List.mem_cons_self _ _)))

theorem scanBrackets_all_gt :
    ∀ (l : List Prediction) (t : ℚ), (∀ p ∈ l, p.time < t) → scanBrackets l t = none
  | [], _, _ => rfl
  | [_], _, _ => rfl
  | p :: q :: rs, t, h => by
    have hrec := scanBrackets_all_gt (q :: rs) t
      (fun x hx => h x (List.mem_cons_of_mem _ hx))
    simp only [scanBrackets, hrec, ite_eq_right_iff]
    intro hc
    exact absurd hc.2 (not_le.2 (h q (List.mem_cons_of_mem _ (List.mem_cons_self _ _))))

theorem sorted_le_getLast :
    ∀ (l : List Prediction), List.Sorted timeLE l →
      ∀ pl, l.getLast? = some pl → ∀ p ∈ l, p.time ≤ pl.time
  | [], _, _, hl => by simp at hl
  | [a], _, pl, hl => by
    simp only [List.getLast?_singleton, Option.some.injEq] at hl
    intro p hp
    simp only [List.mem_singleton] at hp
    rw [hp, hl]
  | a :: b :: rs, hs, pl, hl => by
    rw [List.getLast?_cons_cons] at hl
    obtain ⟨ha, hs'⟩ := List.sorted_cons.mp hs
    have ih := sorted_le_getLast (b :: rs) hs' pl hl
    intro p hp
    rcases List.mem_cons.mp hp with hpa | hpm
    · subst hpa
      have hbl : pl.time ≤ pl.time := le_refl _
      have : b.time ≤ pl.time := ih b (List.mem_cons_self _ _)
      exact le_trans (ha b (List.mem_cons_self _ _)) this
    · exact ih p hpm

/-- C7: for a time-sorted prediction list the interpolator returns `None`
when fewer than 2 points are given or the query lies strictly before the
first or strictly after the last time; a query inside the first bracket
yields the linear interpolation `h1 + (h2 - h1) * (t - t1)/(t2 - t1)`, with
the degenerate zero-duration bracket returning `h1` directly. -/
theorem interpolateCurrentHeight_spec (ps : List Prediction) (t : ℚ)
    (hs : List.Sorted timeLE ps) :
    (ps.length < 2 → interpolateCurrentHeight ps t = none)
    ∧ (∀ p0, ps.head? = some p0 → t < p0.time → interpolateCurrentHeight ps t = none)
    ∧ (∀ pl, ps.getLast? = some pl → pl.time < t → interpolateCurrentHeight ps t = none)
    ∧ (∀ p1 p2 rest, ps = p1 :: p2 :: rest → p1.time ≤ t → t ≤ p2.time →
        interpolateCurrentHeight ps t =
          some (if p2.time - p1.time = 0 then p1.height
                else p1.height + (p2.height - p1.height) * ((t - p1.time) / (p2.time - p1.time)))) := by
  refine ⟨?_, ?_, ?_, ?_⟩
  · intro h
    simp [interpolateCurrentHeight, if_pos h]
  · intro p0 hh hlt
    unfold interpolateCurrentHeight
    split
    · rfl
    · apply scanBrackets_all_lt
      match ps, hh with
      | p0 :: rest, rfl =>
        intro p hp
        rcases List.mem_cons.mp hp with hpa | hpm
        · rw [hpa]; exact hlt
        · exact lt_of_lt_of_le hlt ((List.sorted_cons.mp hs).1 p hpm)
  · intro pl hl hgt
    unfold interpolateCurrentHeight
    split
    · rfl
    · apply scanBrackets_all_gt
      intro p hp
      exact lt_of_le_of_lt (sorted_le_getLast ps hs pl hl p hp) hgt
  · intro p1 p2 rest hps h1 h2
    subst hps
    unfold interpolateCurrentHeight
    rw [if_neg (by simp)]
    simp only [scanBrackets, if_pos (And.intro h1 h2)]

/-- C7 (witness): the spec instantiated on the bracketing points
`(t=0,h=1),(t=10,h=3)` at query `t=5` (result `2.0`), and on the
zero-duration bracket `(t=0,h=1),(t=0,h=5)` at query `t=0` (result `h1 = 1`,
no division error). -/
theorem interpolateCurrentHeight_spec_witness :
    interpolateCurrentHeight [⟨0, 1⟩, ⟨10, 3⟩] 5 = some 2
    ∧ interpolateCurrentHeight [⟨0, 1⟩, ⟨0, 5⟩] 0 = some 1 := by
  constructor
  · have h := (interpolateCurrentHeight_spec [⟨0, 1⟩, ⟨10, 3⟩] 5
      (by norm_num [List.sorted_cons, timeLE])).2.2.2
      ⟨0, 1⟩ ⟨10, 3⟩ [] rfl (by norm_num) (by norm_num)
    rw [h]
    norm_num
  · have h := (interpolateCurrentHeight_spec [⟨0, 1⟩, ⟨0, 5⟩] 0
      (by norm_num [List.sorted_cons, timeLE])).2.2.2
      ⟨0, 1⟩ ⟨0, 5⟩ [] rfl (by norm_num) (by norm_num)
    rw [h]
    norm_num

/-! ## C8: curve synthesizer -/

theorem smoothSegments_length (p : Prediction) (l : List Prediction) :
    (smoothSegments p l).length = 6 * l.length + 1 := by
  induction l generalizing p with
  | nil => rfl
  | cons q rest ih =>
    simp only [smoothSegments, List.length_append, List.length_cons, List.length_map,
      List.length_range, ih, List.length_nil]
    ring

theorem smoothSegments_getElem_six (p : Prediction) (l : List Prediction) (i : Nat)
    (h : i ≤ l.length) :
    (smoothSegments p l)[6 * i]? = (p :: l)[i]? := by
  induction l generalizing p i with
  | nil =>
    have hi : i = 0 := Nat.le_zero.mp h
    subst hi
    rfl
  | cons q rest ih =>
    cases i with
    | zero => simp [smoothSegments]
    | succ n =>
      have hb : (p :: (List.range 5).map fun j => interpBetween p q (j + 1)).length = 6 := by
        simp
      simp only [smoothSegments]
      rw [List.getElem?_append_right (by omega : (p :: (List.range 5).map
        fun j => interpBetween p q (j + 1)).length ≤ 6 * (n + 1))]
      rw [hb]
      rw [show 6 * (n + 1) - 6 = 6 * n by ring_nf; omega]
      rw [List.getElem?_cons_succ]
      exact ih q n (by simpa using h)

theorem smoothSegments_getElem_mid (p : Prediction) (l : List Prediction) (i j : Nat)
    (hj1 : 1 ≤ j) (hj5 : j ≤ 5) :
    ∀ p1 p2, (p :: l)[i]? = some p1 → (p :: l)[i + 1]? = some p2 →
      (smoothSegments p l)[6 * i + j]? = some (interpBetween p1 p2 j) := by
  induction l generalizing p i with
  | nil =>
    intro p1 p2 _ h2
    rw [List.getElem?_cons_succ] at h2
    simp at h2
  | cons q rest ih =>
    intro p1 p2 h1 h2
    cases i with
    | zero =>
      simp only [List.getElem?_cons_zero, Option.some.injEq] at h1
      rw [List.getElem?_cons_succ, List.getElem?_cons_zero] at h2
      injection h2 with h2
      subst h1
      subst h2
      simp only [smoothSegments]
      rw [List.getElem?_append_left (by simp; omega)]
      obtain ⟨jj, rfl⟩ : ∃ jj, j = jj + 1 := ⟨j - 1, by omega⟩
      rw [show 6 * 0 + (jj + 1) = jj + 1 by ring]
      rw [List.getElem?_cons_succ, List.getElem?_map,
        List.getElem?_range (by omega : jj < 5)]
      rfl
    | succ n =>
      rw [List.getElem?_cons_succ] at h1 h2
      have hb : (p :: (List.range 5).map fun j => interpBetween p q (j + 1)).length = 6 := by
        simp
      simp only [smoothSegments]
      rw [List.getElem?_append_right (by rw [hb]; omega)]
      rw [hb]
      rw [show 6 * (n + 1) + j - 6 = 6 * n + j by omega]
      exact ih q n p1 p2 h1 h2

/-- C8: the curve synthesizer returns inputs of fewer than 2 predictions
unchanged; for `N ≥ 2` predictions it returns `(N-1)*6 + 1` points, interval
boundaries carry the raw (time-sorted) points, and the 5 inserted points of
each interval sit at linear time `j/6` with height eased by
`3 r^2 - 2 r^3`. -/
theorem generateSmoothCurve_spec (ps : List Prediction) (t : ℚ) (h2 : 2 ≤ ps.length) :
    (generateSmoothCurve ps t).length = (ps.length - 1) * 6 + 1
    ∧ (∀ i, i < ps.length → (generateSmoothCurve ps t)[6 * i]? = (sortByTime ps)[i]?)
    ∧ (∀ i j p1 p2, 1 ≤ j → j ≤ 5 →
        (sortByTime ps)[i]? = some p1 → (sortByTime ps)[i + 1]? = some p2 →
        (generateSmoothCurve ps t)[6 * i + j]? =
          some ⟨p1.time + (p2.time - p1.time) * ((j : ℚ) / 6),
                p1.height + (p2.height - p1.height) *
                  (3 * ((j : ℚ) / 6) ^ 2 - 2 * ((j : ℚ) / 6) ^ 3)⟩)
    ∧ (∀ qs : List Prediction, qs.length < 2 → generateSmoothCurve qs t = qs) := by
  have hlen := sortByTime_length ps
  have hne : sortByTime ps ≠ [] := by
    intro h
    rw [h] at hlen
    simp at hlen
    omega
  obtain ⟨q, qs, hqs⟩ := List.exists_cons_of_ne_nil hne
  have hql : qs.length = ps.length - 1 := by
    rw [hqs] at hlen
    simp at hlen
    omega
  have hgen : generateSmoothCurve ps t = smoothSegments q qs := by
    unfold generateSmoothCurve
    rw [if_neg (by omega), hqs]
  refine ⟨?_, ?_, ?_, ?_⟩
  · rw [hgen, smoothSegments_length, hql]
    ring
  · intro i hi
    rw [hgen, hqs]
    exact smoothSegments_getElem_six q qs i (by omega)
  · intro i j p1 p2 hj1 hj5 hp1 hp2
    rw [hqs] at hp1 hp2
    rw [hgen, smoothSegments_getElem_mid q qs i j hj1 hj5 p1 p2 hp1 hp2]
    rfl
  · intro qs' hq
    unfold generateSmoothCurve
    rw [if_pos hq]

/-- C8 (witness): the spec instantiated on `[(0,0),(6,6)]`: 7 output points,
and the inserted point at `j = 3` (ratio `1/2`, easing value `1/2`) is
`(3, 3)`. -/
theorem generateSmoothCurve_spec_witness :
    (generateSmoothCurve [⟨0, 0⟩, ⟨6, 6⟩] 0).length = 7
    ∧ (generateSmoothCurve [⟨0, 0⟩, ⟨6, 6⟩] 0)[3]? = some ⟨3, 3⟩ := by
  have h := generateSmoothCurve_spec [⟨0, 0⟩, ⟨6, 6⟩] 0 (by norm_num)
  have hs : sortByTime [⟨0, 0⟩, ⟨6, 6⟩] = [(⟨0, 0⟩ : Prediction), ⟨6, 6⟩] := by
    norm_num [sortByTime, List.insertionSort, List.orderedInsert, timeLE]
  constructor
  · simpa using h.1
  · have hmid := h.2.2.1 0 3 ⟨0, 0⟩ ⟨6, 6⟩ (by norm_num) (by norm_num)
      (by rw [hs]; rfl) (by rw [hs]; rfl)
    rw [show 6 * 0 + 3 = 3 by ring] at hmid
    rw [hmid]
    norm_num [Prediction.mk.injEq]

/-! ## C9: extraction -/

/-- C10: in raw-shape extraction an entry whose combined date/time string
parses but which has no height key at all is not skipped:
`entry.get("altura", 0)` defaults to `0` and the entry is emitted with
height `0.0`; the same entry with a non-numeric height string present is
skipped instead. -/
theorem parseEntry_missing_height_default (e : RawEntry) (f h : String)
    (hf : e.fecha = some f) (hh : e.hora = some h)
    (hne : f ≠ "" ∧ h ≠ "")
    (y mo d hhn mi ss : Nat)
    (hd : strptimeDatetime (f.toList ++ ' ' :: h.toList) = some (y, mo, d, hhn, mi, ss))
    (hno : e.altura = none) :
    parseEntry e = some ⟨datetimeToTimestamp y mo d hhn mi ss, 0⟩
    ∧ parseEntry { e with altura := some (PyVal.str "abc") } = none := by
  simp only [String.toList] at hd
  constructor
  · simp [parseEntry, hf, hh, hne, hd, hno, pyFloat]
  · have hfl : parseFloatQ "abc" = none := by decide
    simp [parseEntry, hf, hh, hne, hd, pyFloat, hfl]

/-- C10 (witness): the statement instantiated on a concrete entry with
`fecha = "2024-01-15"`, `hora = "08:00:00"` and no `altura` key. -/
theorem parseEntry_missing_height_default_witness :
    parseEntry ⟨some "2024-01-15", some "08:00:00", none⟩ =
      some ⟨datetimeToTimestamp 2024 1 15 8 0 0, 0⟩
    ∧ parseEntry ⟨some "2024-01-15", some "08:00:00", some (PyVal.str "abc")⟩ = none := by
  have h := parseEntry_missing_height_default
    ⟨some "2024-01-15", some "08:00:00", none⟩ "2024-01-15" "08:00:00" rfl rfl
    (by decide) 2024 1 15 8 0 0 (by decide) rfl
  exact ⟨h.1, h.2⟩

/-! ## C3: exception handling around geometry -/

/-- C3: counterexample.  On the two-point flat-height payload the time domain
is fine but the padded height range is degenerate, so the geometry
computation raises (`ZeroDivisionError` in `height_to_y`); the public
operation catches it and returns failure with no artifact — it does not
degrade to the "Could not load tide data" artifact and does not report
success. -/
theorem generateTidePlot_flat_heights_failure :
    generateSvgPlot ⟨"Home", "tide.png", false, false⟩
        (generateSmoothCurve (extractPredictions ⟨some [⟨0, 2⟩, ⟨100, 2⟩], none⟩) 50)
        (findExtremes (extractPredictions ⟨some [⟨0, 2⟩, ⟨100, 2⟩], none⟩)) 50
        (interpolateCurrentHeight (extractPredictions ⟨some [⟨0, 2⟩, ⟨100, 2⟩], none⟩) 50)
        (extractPredictions ⟨some [⟨0, 2⟩, ⟨100, 2⟩], none⟩) = Except.error ()
    ∧ generateTidePlot ⟨"Home", "tide.png", false, false⟩
        (some ⟨some [⟨0, 2⟩, ⟨100, 2⟩], none⟩) 50 = (false, none) := by
  constructor <;>
    norm_num [generateTidePlot, extractPredictions, generateSmoothCurve, sortByTime,
      List.insertionSort, List.orderedInsert, timeLE, smoothSegments, interpBetween,
      generateSvgPlot, qListMin, qListMax, padHeightRange, List.range_succ,
      findExtremes, interpolateCurrentHeight, scanBrackets]

/-- C3 (amended): an exception during geometry computation is caught by the
public operation, which reports failure and writes no artifact (it does not
degrade to the error artifact); the error artifact is produced only by the
explicit empty-curve check inside the renderer, and when the renderer
returns a document the operation reports success with that artifact. -/
theorem generateTidePlot_geometry_exception_behavior (cfg : Config) (pay : Payload) (t : ℚ) :
    (generateSvgPlot cfg (generateSmoothCurve (extractPredictions pay) t)
        (findExtremes (extractPredictions pay)) t
        (interpolateCurrentHeight (extractPredictions pay) t)
        (extractPredictions pay) = Except.error () →
      generateTidePlot cfg (some pay) t = (false, none))
    ∧ (∀ ex ch orig, generateSvgPlot cfg [] ex t ch orig = Except.ok (generateErrorSvg cfg))
    ∧ (∀ doc, extractPredictions pay ≠ [] →
        generateSvgPlot cfg (generateSmoothCurve (extractPredictions pay) t)
        (findExtremes (extractPredictions pay)) t
        (interpolateCurrentHeight (extractPredictions pay) t)
        (extractPredictions pay) = Except.ok doc →
        generateTidePlot cfg (some pay) t = (true, some doc)) := by
  refine ⟨?_, ?_, ?_⟩
  · intro herr
    by_cases hemp : (extractPredictions pay).isEmpty
    · exfalso
      have hnil : extractPredictions pay = [] := List.isEmpty_iff.mp hemp
      rw [hnil] at herr
      simp [generateSmoothCurve, generateSvgPlot] at herr
    · simp only [generateTidePlot, hemp, Bool.false_eq_true, if_false, herr]
  · intro ex ch orig
    rfl
  · intro doc hne hok
    have hemp : ¬(extractPredictions pay).isEmpty := by
      simpa [List.isEmpty_iff] using hne
    simp only [generateTidePlot, hemp, Bool.false_eq_true, if_false, hok]

/-- C3 (witness): the empty-curve branch instantiated concretely: the
renderer short-circuits to the fixed error artifact. -/
theorem generateTidePlot_geometry_exception_behavior_witness :
    generateSvgPlot ⟨"Home", "tide.png", false, false⟩ [] [] 0 none [] =
      Except.ok (generateErrorSvg ⟨"Home", "tide.png", false, false⟩) :=
  (generateTidePlot_geometry_exception_behavior ⟨"Home", "tide.png", false, false⟩
    ⟨none, none⟩ 0).2.1 [] none []

/-! ## C4: sink writes -/

/-- C4: counterexample.  With configured path "tide.png" and document "X" the
sink performs exactly two writes — the derived ".svg" path and the configured
path, both carrying the document itself — not three: no write carries the
base64 wrapper document, which is constructed and discarded. -/
theorem saveSvgAsPng_two_writes_cex :
    (saveSvgAsPng ⟨"Home", "tide.png", false, false⟩ "X").2 =
      [("tide.svg", "X"), ("tide.png", "X")]
    ∧ (saveSvgAsPng ⟨"Home", "tide.png", false, false⟩ "X").2.length ≠ 3
    ∧ List.countP (fun w => decide (w.2 = htmlWrapper "X"))
        (saveSvgAsPng ⟨"Home", "tide.png", false, false⟩ "X").2 = 0 := by
  have hrep : replaceStr "tide.png" ".png" ".svg" = "tide.svg" := by decide
  have hx : ("X" : String) ≠ htmlWrapper "X" := by decide
  refine ⟨?_, ?_, ?_⟩
  · simp [saveSvgAsPng, hrep]
  · simp [saveSvgAsPng]
  · simp [saveSvgAsPng, List.countP_cons, hx]

/-- C4 (amended): on a successful render the sink reports success and writes
exactly two artifacts: the document at the alternate path (raster extension
substituted by the vector extension) and the same document at the configured
path; the base64-embedding wrapper document is built in memory but never
written. -/
theorem saveSvgAsPng_writes_spec (cfg : Config) (svg : String)
    (hw : svg ≠ htmlWrapper svg) :
    (saveSvgAsPng cfg svg).1 = true
    ∧ (saveSvgAsPng cfg svg).2 =
        [(replaceStr cfg.filename ".png" ".svg", svg), (cfg.filename, svg)]
    ∧ ∀ w ∈ (saveSvgAsPng cfg svg).2, w.2 ≠ htmlWrapper svg := by
  refine ⟨rfl, rfl, ?_⟩
  intro w hwmem
  have hsnd : w.2 = svg := by
    rcases List.mem_cons.mp hwmem with hcase | hcase
    · rw [hcase]
    · rcases List.mem_cons.mp hcase with hcase2 | hcase2
      · rw [hcase2]
      · simp at hcase2
  rw [hsnd]
  exact hw

/-- C4 (witness): the amended statement at configured path "tide.png" and
document "X". -/
theorem saveSvgAsPng_writes_spec_witness :
    (saveSvgAsPng ⟨"Home", "tide.png", false, false⟩ "X").1 = true
    ∧ (saveSvgAsPng ⟨"Home", "tide.png", false, false⟩ "X").2 =
        [("tide.svg", "X"), ("tide.png", "X")] := by
  have h := saveSvgAsPng_writes_spec ⟨"Home", "tide.png", false, false⟩ "X" (by decide)
  refine ⟨h.1, ?_⟩
  rw [h.2.1]
  have hrep : replaceStr "tide.png" ".png" ".svg" = "tide.svg" := by decide
  rw [hrep]

end ModernTides
